import Mathlib

/-!
Verification development for the SimpleNotes backend key-management
subsystem (`backend/app/routes/keys.py` and the leave-household path of
`backend/app/routes/households.py`).

The persistent store (DynamoDB tables accessed through
`app.utils.database`) is embedded as an explicit `Store` record of
association lists keyed by id strings; each HTTP route handler becomes a
pure function from a `Store` (plus a flag giving the outcome the store
would report for a write attempt) to a result, a new `Store`, and a flag
recording whether a write was attempted.  Python dictionaries are
embedded as association lists with Python's dict semantics: lookup finds
the binding of a key, assignment overwrites it in place or appends, `del`
removes it.  Python truthiness of strings (`""` is falsy) and of optional
values is modelled explicitly where the source relies on it.
-/

/-- Association-list lookup, modelling Python `d.get(k)` / `d[k]`. -/
def dget {β : Type} : List (String × β) → String → Option β
  | [], _ => none
  | (k, v) :: rest, k' => if k = k' then some v else dget rest k'

/-- Association-list update, modelling Python `d[k] = v`: overwrite the
binding of `k` if present, else append a new binding. -/
def dset {β : Type} : List (String × β) → String → β → List (String × β)
  | [], k, v => [(k, v)]
  | (k', v') :: rest, k, v =>
    if k' = k then (k, v) :: rest else (k', v') :: dset rest k v

/-- Association-list deletion, modelling Python `del d[k]`. -/
def ddel {β : Type} : List (String × β) → String → List (String × β)
  | [], _ => []
  | (k', v') :: rest, k => if k' = k then ddel rest k else (k', v') :: ddel rest k

/-- In-place modification of the value bound to a key, used to model a
DynamoDB `update_item` that patches one attribute of an existing item. -/
def dmodify {β : Type} : List (String × β) → String → (β → β) → List (String × β)
  | [], _, _ => []
  | (k', v') :: rest, k, f =>
    if k' = k then (k', f v') :: rest else (k', v') :: dmodify rest k f

/-- Key membership, modelling Python `k in d`. -/
def dcontains {β : Type} (m : List (String × β)) (k : String) : Bool :=
  (dget m k).isSome

theorem dget_dset {β : Type} (m : List (String × β)) (k : String) (v : β)
    (k' : String) :
    dget (dset m k v) k' = if k = k' then some v else dget m k' := by
  induction m with
  | nil => by_cases h : k = k' <;> simp [dset, dget, h]
  | cons p rest ih =>
    obtain ⟨k1, v1⟩ := p
    by_cases h1 : k1 = k
    · subst h1
      by_cases h2 : k1 = k' <;> simp [dset, dget, h2]
    · by_cases h2 : k1 = k'
      · subst h2
        have h3 : ¬ k = k1 := fun h => h1 h.symm
        simp [dset, dget, h1, h3]
      · simp [dset, dget, h1, h2, ih]

theorem dget_ddel {β : Type} (m : List (String × β)) (k k' : String) :
    dget (ddel m k) k' = if k = k' then none else dget m k' := by
  induction m with
  | nil => by_cases h : k = k' <;> simp [ddel, dget, h]
  | cons p rest ih =>
    obtain ⟨k1, v1⟩ := p
    by_cases h1 : k1 = k
    · subst h1
      by_cases h2 : k1 = k'
      · subst h2; simp [ddel, dget, ih]
      · simp [ddel, dget, h2, ih]
    · by_cases h2 : k1 = k'
      · subst h2
        have h3 : ¬ k = k1 := fun h => h1 h.symm
        simp [ddel, dget, h1, h3]
      · simp [ddel, dget, h1, h2, ih]

theorem dget_dmodify {β : Type} (m : List (String × β)) (k : String)
    (f : β → β) (k' : String) :
    dget (dmodify m k f) k' =
      if k = k' then (dget m k).map f else dget m k' := by
  induction m with
  | nil => by_cases h : k = k' <;> simp [dmodify, dget, h]
  | cons p rest ih =>
    obtain ⟨k1, v1⟩ := p
    by_cases h1 : k1 = k
    · subst h1
      by_cases h2 : k1 = k' <;> simp [dmodify, dget, h2]
    · by_cases h2 : k1 = k'
      · subst h2
        have h3 : ¬ k = k1 := fun h => h1 h.symm
        simp [dmodify, dget, h1, h3]
      · simp [dmodify, dget, h1, h2, ih]

/-- Wrapped-key map of one household: Python dict `user_id -> wrapped key`. -/
abbrev WMap := List (String × String)

/-- User record, as far as this subsystem reads or writes it
(`households` list, used by the leave path). -/
structure UserRecord where
  households : List String
deriving DecidableEq, Repr

/-- Per-user encryption key record, the four fields stored by
`setup_user_keys` (`public_key`, `encrypted_private_key`,
`private_key_salt`, `encryption_version`). -/
structure UserKeyRecord where
  public_key : String
  encrypted_private_key : String
  private_key_salt : String
  encryption_version : Nat
deriving DecidableEq, Repr

/-- Household item as read by the key routes: `owner_id` and the
`members` list. -/
structure Household where
  owner_id : String
  members : List String
deriving DecidableEq, Repr

/-- The persistent store: users table, households table, the per-user key
records, and the per-household wrapped-key maps. -/
structure Store where
  users : List (String × UserRecord)
  households : List (String × Household)
  userKeys : List (String × UserKeyRecord)
  householdWrappedKeys : List (String × WMap)
deriving DecidableEq, Repr

/-- Error kinds of the spec taxonomy, mapped from the HTTP responses the
routes raise: 404 is `NotFound`; 403 is `Forbidden`; 400 with the
"Encryption already set up" detail is `AlreadySetUp`; 400 with a
"not a member" detail is `InvalidMember`; 400 with the "Owner cannot
leave" detail is `OwnerCannotLeave`; 500 is `ServiceUnavailable`. -/
inductive ErrKind where
  | NotFound
  | AlreadySetUp
  | Forbidden
  | InvalidMember
  | OwnerCannotLeave
  | ServiceUnavailable
deriving DecidableEq, Repr

/-- Outcome of one route call: either a response value or an error kind. -/
inductive ApiResult (α : Type) where
  | ok (a : α)
  | error (e : ErrKind)
deriving DecidableEq, Repr

/-- Full observable outcome of one route call: the HTTP-level result, the
store afterwards, and whether a store write was attempted. -/
structure RouteOut (α : Type) where
  result : ApiResult α
  store : Store
  wrote : Bool
deriving DecidableEq, Repr

/-- Database read `get_user_by_id` (in `app/utils/database.py`). -/
def get_user_by_id (s : Store) (uid : String) : Option UserRecord :=
  dget s.users uid

/-- Database read `get_household` (in `app/utils/database.py`). -/
def get_household (s : Store) (hid : String) : Option Household :=
  dget s.households hid

/-- Modelled from the spec: `get_user_keys` is imported from
`app.utils.database` but absent from the sources; per the spec the User
Key Registry stores at most one record per user, so it is a keyed read. -/
def get_user_keys (s : Store) (uid : String) : Option UserKeyRecord :=
  dget s.userKeys uid

/-- Modelled from the spec: `update_user_keys` is imported from
`app.utils.database` but absent from the sources; per the spec it
persists the four fields of the user's record. -/
def update_user_keys (s : Store) (uid : String) (r : UserKeyRecord) : Store :=
  { s with userKeys := dset s.userKeys uid r }

/-- Modelled from the spec: `get_household_wrapped_keys` is imported from
`app.utils.database` but absent from the sources; per the spec the Vault
stores per household one map from member id to wrapped key. -/
def get_household_wrapped_keys (s : Store) (hid : String) : Option WMap :=
  dget s.householdWrappedKeys hid

/-- Modelled from the spec: `update_household_wrapped_keys` is imported
from `app.utils.database` but absent from the sources; per the spec a
write stores the whole map, replacing the previous one. -/
def update_household_wrapped_keys (s : Store) (hid : String) (m : WMap) :
    Store :=
  { s with householdWrappedKeys := dset s.householdWrappedKeys hid m }

/-- Database write `update_household(hid, \x7bmembers: ...\x7d)` as issued by
the leave path: patch the `members` attribute of an existing item. -/
def update_household_members (s : Store) (hid : String)
    (members : List String) : Store :=
  { s with households := dmodify s.households hid (fun hh => { hh with members := members }) }

/-- Database write `update_user(uid, \x7bhouseholds: ...\x7d)` as issued by the
leave path: patch the `households` attribute of an existing user item. -/
def update_user_households (s : Store) (uid : String)
    (households : List String) : Store :=
  { s with users := dmodify s.users uid (fun u => { u with households := households }) }

/-- Python truthiness of an optional string: `None` and `""` are falsy. -/
def pyTruthy : Option String → Bool
  | none => false
  | some str => str ≠ ""

/-- Request body of `POST /keys/user` (`UserKeySetup`). -/
structure UserKeySetup where
  public_key : String
  encrypted_private_key : String
  salt : String
  version : Nat
deriving DecidableEq, Repr

/-- Response body of the user-key endpoints (`UserKeyResponse`). -/
structure UserKeyResponse where
  public_key : String
  encrypted_private_key : String
  salt : String
  version : Nat
  has_keys : Bool
deriving DecidableEq, Repr

/-- Response body of `GET /keys/household/\x7bhid\x7d` (`HouseholdKeyResponse`). -/
structure HouseholdKeyResponse where
  household_id : String
  wrapped_key : Option String
  has_key : Bool
deriving DecidableEq, Repr

/-- Route `POST /keys/user` (`setup_user_keys` in `routes/keys.py`):
404 if the caller's user record is absent; 400 `AlreadySetUp` if a key
record with a truthy (non-empty) public key exists; otherwise store the
four fields, with 500 if the store write fails (`writeOk = false`). -/
def setup_user_keys (s : Store) (writeOk : Bool) (caller : String)
    (data : UserKeySetup) : RouteOut UserKeyResponse :=
  match get_user_by_id s caller with
  | none => ⟨.error .NotFound, s, false⟩
  | some _ =>
    let alreadySet : Bool :=
      match get_user_keys s caller with
      | some r => r.public_key ≠ ""
      | none => false
    if alreadySet then ⟨.error .AlreadySetUp, s, false⟩
    else if writeOk then
      ⟨.ok ⟨data.public_key, data.encrypted_private_key, data.salt,
            data.version, true⟩,
       update_user_keys s caller
         ⟨data.public_key, data.encrypted_private_key, data.salt,
          data.version⟩,
       true⟩
    else ⟨.error .ServiceUnavailable, s, true⟩

/-- Route `GET /keys/user` (`get_user_encryption_keys` in
`routes/keys.py`): a pure read; 404 unless a key record with a truthy
public key exists. -/
def get_user_encryption_keys (s : Store) (caller : String) :
    RouteOut UserKeyResponse :=
  match get_user_keys s caller with
  | none => ⟨.error .NotFound, s, false⟩
  | some r =>
    if r.public_key = "" then ⟨.error .NotFound, s, false⟩
    else
      ⟨.ok ⟨r.public_key, r.encrypted_private_key, r.private_key_salt,
            r.encryption_version, true⟩, s, false⟩

/-- Route `GET /keys/household/\x7bhid\x7d` (`get_household_key` in
`routes/keys.py`): 404 if the household is absent, 403 if the caller is
not a member; otherwise a successful response whose `wrapped_key` is the
caller's entry (the source computes it as
`wrapped_keys.get(user_id) if wrapped_keys else None`, so an absent or
empty map yields `None`) and whose `has_key` is the Python truthiness of
that value. -/
def get_household_key (s : Store) (caller hid : String) :
    RouteOut HouseholdKeyResponse :=
  match get_household s hid with
  | none => ⟨.error .NotFound, s, false⟩
  | some hh =>
    if hh.members.contains caller then
      let user_wrapped_key : Option String :=
        match get_household_wrapped_keys s hid with
        | some m => if m.isEmpty then none else dget m caller
        | none => none
      ⟨.ok ⟨hid, user_wrapped_key, pyTruthy user_wrapped_key⟩, s, false⟩
    else ⟨.error .Forbidden, s, false⟩

/-- Route `POST /keys/household/\x7bhid\x7d` (`set_household_keys` in
`routes/keys.py`): 404 if the household is absent, 403 unless the caller
is the owner, 400 `InvalidMember` if any key of the input map is not a
current member; otherwise replace the whole stored map, 500 if the write
fails. -/
def set_household_keys (s : Store) (writeOk : Bool) (caller hid : String)
    (wrapped_keys : WMap) : RouteOut Unit :=
  match get_household s hid with
  | none => ⟨.error .NotFound, s, false⟩
  | some hh =>
    if hh.owner_id = caller then
      if wrapped_keys.any (fun p => !(hh.members.contains p.1)) then
        ⟨.error .InvalidMember, s, false⟩
      else if writeOk then
        ⟨.ok (), update_household_wrapped_keys s hid wrapped_keys, true⟩
      else ⟨.error .ServiceUnavailable, s, true⟩
    else ⟨.error .Forbidden, s, false⟩

/-- Route `POST /keys/household/\x7bhid\x7d/member` (`add_member_key` in
`routes/keys.py`), checks in source order: 404 if the household is
absent; 403 if the caller is not a member; 400 `InvalidMember` if the
target is not a member; 403 if the caller has no entry in the wrapped-key
map (read with `or \x7b\x7d`); otherwise insert/overwrite the target's entry
and write the map back, 500 if the write fails. -/
def add_member_key (s : Store) (writeOk : Bool) (caller hid target wrapped_key : String) :
    RouteOut Unit :=
  match get_household s hid with
  | none => ⟨.error .NotFound, s, false⟩
  | some hh =>
    if hh.members.contains caller then
      if hh.members.contains target then
        let existing_keys : WMap := (get_household_wrapped_keys s hid).getD []
        if dcontains existing_keys caller then
          if writeOk then
            ⟨.ok (),
             update_household_wrapped_keys s hid
               (dset existing_keys target wrapped_key), true⟩
          else ⟨.error .ServiceUnavailable, s, true⟩
        else ⟨.error .Forbidden, s, false⟩
      else ⟨.error .InvalidMember, s, false⟩
    else ⟨.error .Forbidden, s, false⟩

/-- Route `DELETE /keys/household/\x7bhid\x7d/member/\x7bmid\x7d`
(`remove_member_key` in `routes/keys.py`): 404 if the household is
absent; 403 unless the caller is the owner; then the entry is deleted and
the map written back only when the entry exists (500 if that write
fails); an absent entry is a successful no-op with no write. -/
def remove_member_key (s : Store) (writeOk : Bool) (caller hid member_id : String) :
    RouteOut Unit :=
  match get_household s hid with
  | none => ⟨.error .NotFound, s, false⟩
  | some hh =>
    if hh.owner_id = caller then
      let existing_keys : WMap := (get_household_wrapped_keys s hid).getD []
      if dcontains existing_keys member_id then
        if writeOk then
          ⟨.ok (),
           update_household_wrapped_keys s hid (ddel existing_keys member_id),
           true⟩
        else ⟨.error .ServiceUnavailable, s, true⟩
      else ⟨.ok (), s, false⟩
    else ⟨.error .Forbidden, s, false⟩

/-- Route `POST /households/\x7bhid\x7d/leave` (`leave_household` in
`routes/households.py`): 404 if the household is absent; 403 if the
caller is not a member; 400 if the caller is the owner; otherwise filter
the caller out of the members list, write it back, and filter the
household out of the caller's user record (the source ignores both write
results). -/
def leave_household (s : Store) (caller hid : String) : RouteOut Unit :=
  match get_household s hid with
  | none => ⟨.error .NotFound, s, false⟩
  | some hh =>
    if hh.members.contains caller then
      if hh.owner_id = caller then ⟨.error .OwnerCannotLeave, s, false⟩
      else
        let members := hh.members.filter (fun m => m ≠ caller)
        let s1 := update_household_members s hid members
        let s2 :=
          match get_user_by_id s1 caller with
          | some u =>
            update_user_households s1 caller
              (u.households.filter (fun h => h ≠ hid))
          | none => s1
        ⟨.ok (), s2, true⟩
    else ⟨.error .Forbidden, s, false⟩

/-! Store-level frame lemmas: each table write touches only its own table. -/

theorem get_household_update_wrapped (s : Store) (hid : String) (m : WMap)
    (hid' : String) :
    get_household (update_household_wrapped_keys s hid m) hid' =
      get_household s hid' := rfl

theorem get_user_by_id_update_user_keys (s : Store) (uid : String)
    (r : UserKeyRecord) (uid' : String) :
    get_user_by_id (update_user_keys s uid r) uid' = get_user_by_id s uid' := rfl

theorem get_wrapped_update_wrapped (s : Store) (hid : String) (m : WMap)
    (hid' : String) :
    get_household_wrapped_keys (update_household_wrapped_keys s hid m) hid' =
      if hid = hid' then some m else get_household_wrapped_keys s hid' := by
  simp [get_household_wrapped_keys, update_household_wrapped_keys, dget_dset]

theorem get_user_keys_update_user_keys (s : Store) (uid : String)
    (r : UserKeyRecord) (uid' : String) :
    get_user_keys (update_user_keys s uid r) uid' =
      if uid = uid' then some r else get_user_keys s uid' := by
  simp [get_user_keys, update_user_keys, dget_dset]

theorem dget_eq_none_of_dcontains_false {β : Type} (m : List (String × β))
    (k : String) (h : dcontains m k = false) : dget m k = none := by
  unfold dcontains at h
  cases hm : dget m k with
  | none => rfl
  | some v => rw [hm] at h; simp at h

/-! Characterization helpers for the route functions, shared across the
claim theorems below. -/

theorem remove_member_key_absent_eq (s : Store) (writeOk : Bool)
    (caller hid mid : String) (hh : Household)
    (hget : get_household s hid = some hh) (hown : hh.owner_id = caller)
    (habs : dcontains ((get_household_wrapped_keys s hid).getD []) mid = false) :
    remove_member_key s writeOk caller hid mid = ⟨.ok (), s, false⟩ := by
  simp [remove_member_key, hget, hown, habs]

theorem remove_member_key_present_eq (s : Store) (caller hid mid : String)
    (hh : Household)
    (hget : get_household s hid = some hh) (hown : hh.owner_id = caller)
    (hpres : dcontains ((get_household_wrapped_keys s hid).getD []) mid = true) :
    remove_member_key s true caller hid mid =
      ⟨.ok (),
       update_household_wrapped_keys s hid
         (ddel ((get_household_wrapped_keys s hid).getD []) mid), true⟩ := by
  simp [remove_member_key, hget, hown, hpres]

/-! Example stores used to instantiate the claim theorems. -/

/-- Household `h`: owner `o`, members `o` and `m`; the vault holds a
wrapped key for `o` only. -/
def egStoreA : Store :=
  ⟨[("o", ⟨["h"]⟩), ("m", ⟨["h"]⟩)],
   [("h", ⟨"o", ["o", "m"]⟩)],
   [],
   [("h", [("o", "ko")])]⟩

/-- C9: a caller whose user record is absent from the user store gets
`NotFound` from `setup_user_keys` before the `AlreadySetUp` check is
reached, and nothing is stored. -/
theorem C9_setup_user_keys_missing_user (s : Store) (writeOk : Bool)
    (caller : String) (data : UserKeySetup)
    (huser : get_user_by_id s caller = none) :
    (setup_user_keys s writeOk caller data).result = .error .NotFound ∧
    (setup_user_keys s writeOk caller data).store = s ∧
    (setup_user_keys s writeOk caller data).wrote = false := by
  simp [setup_user_keys, huser]

/-- Store for the C9 witness: user `u` has no user record, yet a key
record (which would otherwise trigger `AlreadySetUp`) exists. -/
def egStoreC9 : Store :=
  ⟨[], [], [("u", ⟨"pk", "epk", "salt", 1⟩)], []⟩

/-- C9 witness at a concrete input: `NotFound` wins even though a key
record with a non-empty public key exists for `u`. -/
theorem C9_setup_user_keys_missing_user_witness :
    get_user_by_id egStoreC9 "u" = none ∧
    ((setup_user_keys egStoreC9 true "u" ⟨"pk2", "e2", "s2", 1⟩).result =
        .error .NotFound ∧
     (setup_user_keys egStoreC9 true "u" ⟨"pk2", "e2", "s2", 1⟩).store =
        egStoreC9 ∧
     (setup_user_keys egStoreC9 true "u" ⟨"pk2", "e2", "s2", 1⟩).wrote = false) :=
  ⟨by decide,
   C9_setup_user_keys_missing_user egStoreC9 true "u" ⟨"pk2", "e2", "s2", 1⟩
     (by decide)⟩

/-- C10: when the target entry is absent from the wrapped-key map,
`remove_member_key` performs no store write at all — for every write
outcome the call succeeds with the store untouched and no write
attempted, so the `ServiceUnavailable` branch is unreachable; conversely
a write is attempted only when the entry was present. -/
theorem C10_remove_member_key_absent_no_write (s : Store)
    (caller hid mid : String) (hh : Household)
    (hget : get_household s hid = some hh) (hown : hh.owner_id = caller) :
    (dcontains ((get_household_wrapped_keys s hid).getD []) mid = false →
      ∀ writeOk,
        (remove_member_key s writeOk caller hid mid).result = .ok () ∧
        (remove_member_key s writeOk caller hid mid).store = s ∧
        (remove_member_key s writeOk caller hid mid).wrote = false) ∧
    (∀ writeOk, (remove_member_key s writeOk caller hid mid).wrote = true →
      dcontains ((get_household_wrapped_keys s hid).getD []) mid = true) := by
  constructor
  · intro habs writeOk
    rw [remove_member_key_absent_eq s writeOk caller hid mid hh hget hown habs]
    exact ⟨rfl, rfl, rfl⟩
  · intro writeOk hw
    by_cases hc : dcontains ((get_household_wrapped_keys s hid).getD []) mid = true
    · exact hc
    · exfalso
      rw [remove_member_key_absent_eq s writeOk caller hid mid hh hget hown
            (by simpa using hc)] at hw
      simp at hw

/-- C10 witness at a concrete input: removing the keyless member `m`
(with the store-write outcome set to failure) still succeeds, touches
nothing, and attempts no write. -/
theorem C10_remove_member_key_absent_no_write_witness :
    get_household egStoreA "h" = some ⟨"o", ["o", "m"]⟩ ∧
    (⟨"o", ["o", "m"]⟩ : Household).owner_id = "o" ∧
    ((dcontains ((get_household_wrapped_keys egStoreA "h").getD []) "m" = false →
      ∀ writeOk,
        (remove_member_key egStoreA writeOk "o" "h" "m").result = .ok () ∧
        (remove_member_key egStoreA writeOk "o" "h" "m").store = egStoreA ∧
        (remove_member_key egStoreA writeOk "o" "h" "m").wrote = false) ∧
    (∀ writeOk, (remove_member_key egStoreA writeOk "o" "h" "m").wrote = true →
      dcontains ((get_household_wrapped_keys egStoreA "h").getD []) "m" = true)) :=
  ⟨by decide, by decide,
   C10_remove_member_key_absent_no_write egStoreA "o" "h" "m" ⟨"o", ["o", "m"]⟩
     (by decide) (by decide)⟩

/-- C7: `remove_member_key` is idempotent — with an absent entry the call
reports success and leaves the map unchanged, and running it twice for
the same member id succeeds both times and yields the same final state as
running it once. -/
theorem C7_remove_member_key_idempotent (s : Store) (caller hid mid : String)
    (hh : Household)
    (hget : get_household s hid = some hh) (hown : hh.owner_id = caller) :
    (dcontains ((get_household_wrapped_keys s hid).getD []) mid = false →
      ∀ writeOk,
        (remove_member_key s writeOk caller hid mid).result = .ok () ∧
        (remove_member_key s writeOk caller hid mid).store = s) ∧
    ((remove_member_key s true caller hid mid).result = .ok () ∧
     (remove_member_key (remove_member_key s true caller hid mid).store
        true caller hid mid).result = .ok () ∧
     (remove_member_key (remove_member_key s true caller hid mid).store
        true caller hid mid).store =
       (remove_member_key s true caller hid mid).store) := by
  constructor
  · intro habs writeOk
    rw [remove_member_key_absent_eq s writeOk caller hid mid hh hget hown habs]
    exact ⟨rfl, rfl⟩
  · by_cases hc : dcontains ((get_household_wrapped_keys s hid).getD []) mid = true
    · rw [remove_member_key_present_eq s caller hid mid hh hget hown hc]
      have hget1 : get_household
          (update_household_wrapped_keys s hid
            (ddel ((get_household_wrapped_keys s hid).getD []) mid)) hid =
          some hh := hget
      have habs1 : dcontains
          ((get_household_wrapped_keys
              (update_household_wrapped_keys s hid
                (ddel ((get_household_wrapped_keys s hid).getD []) mid)) hid).getD [])
          mid = false := by
        rw [get_wrapped_update_wrapped]
        simp [dcontains, dget_ddel]
      rw [remove_member_key_absent_eq _ true caller hid mid hh hget1 hown habs1]
      exact ⟨rfl, rfl, rfl⟩
    · have habs : dcontains ((get_household_wrapped_keys s hid).getD []) mid = false := by
        simpa using hc
      rw [remove_member_key_absent_eq s true caller hid mid hh hget hown habs]
      rw [remove_member_key_absent_eq s true caller hid mid hh hget hown habs]
      exact ⟨rfl, rfl, rfl⟩

/-- C7 witness at a concrete input: removing `o`'s existing entry twice
succeeds both times and the second run changes nothing further. -/
theorem C7_remove_member_key_idempotent_witness :
    get_household egStoreA "h" = some ⟨"o", ["o", "m"]⟩ ∧
    (⟨"o", ["o", "m"]⟩ : Household).owner_id = "o" ∧
    ((dcontains ((get_household_wrapped_keys egStoreA "h").getD []) "o" = false →
      ∀ writeOk,
        (remove_member_key egStoreA writeOk "o" "h" "o").result = .ok () ∧
        (remove_member_key egStoreA writeOk "o" "h" "o").store = egStoreA) ∧
    ((remove_member_key egStoreA true "o" "h" "o").result = .ok () ∧
     (remove_member_key (remove_member_key egStoreA true "o" "h" "o").store
        true "o" "h" "o").result = .ok () ∧
     (remove_member_key (remove_member_key egStoreA true "o" "h" "o").store
        true "o" "h" "o").store =
       (remove_member_key egStoreA true "o" "h" "o").store)) :=
  ⟨by decide, by decide,
   C7_remove_member_key_idempotent egStoreA "o" "h" "o" ⟨"o", ["o", "m"]⟩
     (by decide) (by decide)⟩

/-- C1 counterexample: in `egStoreA` the caller `m` is a current member
of household `h` with no entry in the wrapped-key map, yet for the
non-member target `t` the call fails `InvalidMember` (the source checks
target membership before the caller's vault entry), not `Forbidden` as
the claim states. -/
theorem C1_add_member_key_nonmember_target_counterexample :
    get_household egStoreA "h" = some ⟨"o", ["o", "m"]⟩ ∧
    (Household.members ⟨"o", ["o", "m"]⟩).contains "m" = true ∧
    dcontains ((get_household_wrapped_keys egStoreA "h").getD []) "m" = false ∧
    (add_member_key egStoreA true "m" "h" "t" "w").result = .error .InvalidMember ∧
    (add_member_key egStoreA true "m" "h" "t" "w").result ≠
      .error .Forbidden := by decide

/-- C1 (amended): for a caller who is a current member, if the caller has
no entry in the wrapped-key map then `add_member_key` fails `Forbidden`
when the target is a member and `InvalidMember` when the target is not
(the target-membership check runs first); and the call succeeds only
when the target is a member and the caller has a vault entry. -/
theorem C1_add_member_key_authorization (s : Store) (writeOk : Bool)
    (caller hid target w : String) (hh : Household)
    (hget : get_household s hid = some hh)
    (hmem : hh.members.contains caller = true) :
    (dcontains ((get_household_wrapped_keys s hid).getD []) caller = false →
      (hh.members.contains target = true →
        (add_member_key s writeOk caller hid target w).result =
          .error .Forbidden) ∧
      (hh.members.contains target = false →
        (add_member_key s writeOk caller hid target w).result =
          .error .InvalidMember)) ∧
    ((add_member_key s writeOk caller hid target w).result = .ok () →
      hh.members.contains target = true ∧
      dcontains ((get_household_wrapped_keys s hid).getD []) caller = true) := by
  have hmem' : caller ∈ hh.members := by simpa using hmem
  constructor
  · intro hnok
    constructor
    · intro htgt
      have htgt' : target ∈ hh.members := by simpa using htgt
      simp [add_member_key, hget, hmem', htgt', hnok]
    · intro htgt
      have htgt' : target ∉ hh.members := by simpa using htgt
      simp [add_member_key, hget, hmem', htgt']
  · intro hok
    by_cases htgt : target ∈ hh.members
    · refine ⟨by simpa using htgt, ?_⟩
      by_cases hkey : dcontains ((get_household_wrapped_keys s hid).getD []) caller = true
      · exact hkey
      · exfalso
        have hnok : dcontains ((get_household_wrapped_keys s hid).getD []) caller = false := by
          simpa using hkey
        simp [add_member_key, hget, hmem', htgt, hnok] at hok
    · exfalso
      simp [add_member_key, hget, hmem', htgt] at hok

/-- C1 witness at a concrete input: caller `m` is a member of `h` and the
amended characterization holds there. -/
theorem C1_add_member_key_authorization_witness :
    get_household egStoreA "h" = some ⟨"o", ["o", "m"]⟩ ∧
    (Household.members ⟨"o", ["o", "m"]⟩).contains "m" = true ∧
    ((dcontains ((get_household_wrapped_keys egStoreA "h").getD []) "m" = false →
      ((Household.members ⟨"o", ["o", "m"]⟩).contains "o" = true →
        (add_member_key egStoreA true "m" "h" "o" "w").result =
          .error .Forbidden) ∧
      ((Household.members ⟨"o", ["o", "m"]⟩).contains "o" = false →
        (add_member_key egStoreA true "m" "h" "o" "w").result =
          .error .InvalidMember)) ∧
    ((add_member_key egStoreA true "m" "h" "o" "w").result = .ok () →
      (Household.members ⟨"o", ["o", "m"]⟩).contains "o" = true ∧
      dcontains ((get_household_wrapped_keys egStoreA "h").getD []) "m" = true)) :=
  ⟨by decide, by decide,
   C1_add_member_key_authorization egStoreA true "m" "h" "o" "w"
     ⟨"o", ["o", "m"]⟩ (by decide) (by decide)⟩

/-- C2: an owner-issued bulk `set_household_keys` fails `InvalidMember`
and leaves the store untouched when any key of the input map is not a
current member; otherwise (with the store write succeeding) it succeeds
and the stored map becomes exactly the input map, so every previously
stored entry whose member id is absent from the input is dropped. -/
theorem C2_set_household_keys_replace (s : Store) (caller hid : String)
    (M : WMap) (hh : Household)
    (hget : get_household s hid = some hh) (hown : hh.owner_id = caller) :
    (M.any (fun p => !(hh.members.contains p.1)) = true →
      ∀ writeOk,
        (set_household_keys s writeOk caller hid M).result =
          .error .InvalidMember ∧
        (set_household_keys s writeOk caller hid M).store = s ∧
        (set_household_keys s writeOk caller hid M).wrote = false) ∧
    (M.any (fun p => !(hh.members.contains p.1)) = false →
      (set_household_keys s true caller hid M).result = .ok () ∧
      get_household_wrapped_keys
        (set_household_keys s true caller hid M).store hid = some M ∧
      ∀ k, dcontains M k = false →
        dget ((get_household_wrapped_keys
          (set_household_keys s true caller hid M).store hid).getD []) k =
          none) := by
  constructor
  · intro hbad writeOk
    have h1 : set_household_keys s writeOk caller hid M =
        ⟨.error .InvalidMember, s, false⟩ := by
      simp only [set_household_keys, hget]
      rw [if_pos hown, if_pos hbad]
    rw [h1]
    exact ⟨rfl, rfl, rfl⟩
  · intro hgood
    have h1 : set_household_keys s true caller hid M =
        ⟨.ok (), update_household_wrapped_keys s hid M, true⟩ := by
      simp only [set_household_keys, hget]
      rw [if_pos hown, if_neg (by rw [hgood]; exact Bool.false_ne_true)]
      simp
    rw [h1]
    refine ⟨rfl, ?_, ?_⟩
    · rw [get_wrapped_update_wrapped]; simp
    · intro k hk
      rw [get_wrapped_update_wrapped]
      simp [dget_eq_none_of_dcontains_false M k hk]

/-- C2 witness at a concrete input: the owner replaces the map of `h`
(previously holding only `o`'s entry) with a map for `o` and `m`; the
characterization holds there, in particular an id absent from the input,
such as `gone`, has no entry afterwards. -/
theorem C2_set_household_keys_replace_witness :
    get_household egStoreA "h" = some ⟨"o", ["o", "m"]⟩ ∧
    (⟨"o", ["o", "m"]⟩ : Household).owner_id = "o" ∧
    (([("o", "k1"), ("m", "k2")] : WMap).any
        (fun p => !((Household.members ⟨"o", ["o", "m"]⟩).contains p.1)) = true →
      ∀ writeOk,
        (set_household_keys egStoreA writeOk "o" "h"
            [("o", "k1"), ("m", "k2")]).result = .error .InvalidMember ∧
        (set_household_keys egStoreA writeOk "o" "h"
            [("o", "k1"), ("m", "k2")]).store = egStoreA ∧
        (set_household_keys egStoreA writeOk "o" "h"
            [("o", "k1"), ("m", "k2")]).wrote = false) ∧
    (([("o", "k1"), ("m", "k2")] : WMap).any
        (fun p => !((Household.members ⟨"o", ["o", "m"]⟩).contains p.1)) = false →
      (set_household_keys egStoreA true "o" "h"
          [("o", "k1"), ("m", "k2")]).result = .ok () ∧
      get_household_wrapped_keys
        (set_household_keys egStoreA true "o" "h"
          [("o", "k1"), ("m", "k2")]).store "h" = some [("o", "k1"), ("m", "k2")] ∧
      ∀ k, dcontains ([("o", "k1"), ("m", "k2")] : WMap) k = false →
        dget ((get_household_wrapped_keys
          (set_household_keys egStoreA true "o" "h"
            [("o", "k1"), ("m", "k2")]).store "h").getD []) k = none) :=
  ⟨by decide, by decide,
   (C2_set_household_keys_replace egStoreA "o" "h" [("o", "k1"), ("m", "k2")]
     ⟨"o", ["o", "m"]⟩ (by decide) (by decide)).1,
   (C2_set_household_keys_replace egStoreA "o" "h" [("o", "k1"), ("m", "k2")]
     ⟨"o", ["o", "m"]⟩ (by decide) (by decide)).2⟩

/-- Helper: `get_user_encryption_keys` is a pure read and never changes
the store. -/
theorem get_user_encryption_keys_store (s : Store) (uid : String) :
    (get_user_encryption_keys s uid).store = s := by
  unfold get_user_encryption_keys
  cases get_user_keys s uid with
  | none => rfl
  | some r => by_cases h : r.public_key = "" <;> simp [h]

/-- Helper: `setup_user_keys` fails `AlreadySetUp` without touching the
store whenever the caller exists and already has a key record with a
non-empty public key. -/
theorem setup_user_keys_already_eq (s : Store) (writeOk : Bool)
    (caller : String) (data : UserKeySetup) (u : UserRecord)
    (r : UserKeyRecord) (hu : get_user_by_id s caller = some u)
    (hk : get_user_keys s caller = some r) (hr : r.public_key ≠ "") :
    setup_user_keys s writeOk caller data = ⟨.error .AlreadySetUp, s, false⟩ := by
  simp [setup_user_keys, hu, hk, hr]

/-- Store for the C3 counterexample: user `u` exists with no key record. -/
def egStoreC3 : Store := ⟨[("u", ⟨[]⟩)], [], [], []⟩

/-- C3 counterexample: two `setup_user_keys` calls by the same user both
succeed — the first stores an empty `public_key`, which the source's
truthiness check (`existing_keys.get("public_key")`) does not count as
already set up, so the second call does not fail `AlreadySetUp`. -/
theorem C3_setup_user_keys_twice_counterexample :
    (setup_user_keys egStoreC3 true "u" ⟨"", "epk", "salt", 1⟩).result =
      .ok ⟨"", "epk", "salt", 1, true⟩ ∧
    (setup_user_keys
        (setup_user_keys egStoreC3 true "u" ⟨"", "epk", "salt", 1⟩).store
        true "u" ⟨"pk2", "epk2", "salt2", 1⟩).result =
      .ok ⟨"pk2", "epk2", "salt2", 1, true⟩ ∧
    (setup_user_keys
        (setup_user_keys egStoreC3 true "u" ⟨"", "epk", "salt", 1⟩).store
        true "u" ⟨"pk2", "epk2", "salt2", 1⟩).result ≠
      .error .AlreadySetUp := by decide

/-- C3 (amended): after a successful `setup_user_keys` whose stored
`public_key` is non-empty, every subsequent attempt by that user fails
`AlreadySetUp` with the stored record untouched and no write attempted —
also after the stored fields have been read, reading being a pure
operation that leaves the store unchanged.  (A successful setup that
stored an empty `public_key` does not block later attempts.) -/
theorem C3_setup_user_keys_write_once (s : Store) (writeOk : Bool)
    (caller : String) (data : UserKeySetup) (r : UserKeyResponse)
    (hok : (setup_user_keys s writeOk caller data).result = .ok r)
    (hpk : data.public_key ≠ "") :
    (get_user_encryption_keys
        (setup_user_keys s writeOk caller data).store caller).store =
      (setup_user_keys s writeOk caller data).store ∧
    ∀ writeOk2 (data2 : UserKeySetup),
      (setup_user_keys (setup_user_keys s writeOk caller data).store
         writeOk2 caller data2).result = .error .AlreadySetUp ∧
      (setup_user_keys (setup_user_keys s writeOk caller data).store
         writeOk2 caller data2).store =
        (setup_user_keys s writeOk caller data).store ∧
      (setup_user_keys (setup_user_keys s writeOk caller data).store
         writeOk2 caller data2).wrote = false := by
  have hexu : ∃ u, get_user_by_id s caller = some u := by
    cases hu : get_user_by_id s caller with
    | none => simp [setup_user_keys, hu] at hok
    | some u => exact ⟨u, rfl⟩
  obtain ⟨u, hu⟩ := hexu
  have hbranch : (setup_user_keys s writeOk caller data).store =
      update_user_keys s caller
        ⟨data.public_key, data.encrypted_private_key, data.salt,
         data.version⟩ := by
    cases hk : get_user_keys s caller with
    | none =>
      cases writeOk with
      | false => simp [setup_user_keys, hu, hk] at hok
      | true => simp [setup_user_keys, hu, hk]
    | some r0 =>
      by_cases hr0 : r0.public_key = ""
      · cases writeOk with
        | false => simp [setup_user_keys, hu, hk, hr0] at hok
        | true => simp [setup_user_keys, hu, hk, hr0]
      · simp [setup_user_keys, hu, hk, hr0] at hok
  refine ⟨get_user_encryption_keys_store _ caller, ?_⟩
  intro writeOk2 data2
  have hu1 : get_user_by_id (setup_user_keys s writeOk caller data).store caller =
      some u := by
    rw [hbranch, get_user_by_id_update_user_keys]; exact hu
  have hk1 : get_user_keys (setup_user_keys s writeOk caller data).store caller =
      some ⟨data.public_key, data.encrypted_private_key, data.salt,
            data.version⟩ := by
    rw [hbranch, get_user_keys_update_user_keys]; simp
  rw [setup_user_keys_already_eq _ writeOk2 caller data2 u _ hu1 hk1 hpk]
  exact ⟨rfl, rfl, rfl⟩

/-- Helper: for an existing household and a member caller,
`get_household_key` returns the caller's entry of the wrapped-key map
together with its Python truthiness, and performs no write. -/
theorem get_household_key_member_eq (s : Store) (caller hid : String)
    (hh : Household) (hget : get_household s hid = some hh)
    (hmem : hh.members.contains caller = true) :
    get_household_key s caller hid =
      ⟨.ok ⟨hid, dget ((get_household_wrapped_keys s hid).getD []) caller,
            pyTruthy (dget ((get_household_wrapped_keys s hid).getD []) caller)⟩,
       s, false⟩ := by
  have hmem' : caller ∈ hh.members := by simpa using hmem
  cases hk : get_household_wrapped_keys s hid with
  | none => simp [get_household_key, hget, hmem', hk, dget]
  | some m =>
    cases m with
    | nil => simp [get_household_key, hget, hmem', hk, dget]
    | cons p rest => simp [get_household_key, hget, hmem', hk]

/-- Store for the C4 counterexample: member `m` of household `h` has an
entry in the wrapped-key map whose value is the empty string. -/
def egStoreC4 : Store :=
  ⟨[], [("h", ⟨"o", ["o", "m"]⟩)], [], [("h", [("o", "ko"), ("m", "")])]⟩

/-- C4 counterexample: member `m` has an entry in the wrapped-key map
(the empty string, which the API accepts), yet `get_household_key`
reports `has_key = false` because the source computes `has_key` with
Python truthiness (`bool("")` is `False`) — refuting "when the caller has
an entry it returns `has_key=true`". -/
theorem C4_get_household_key_empty_entry_counterexample :
    get_household egStoreC4 "h" = some ⟨"o", ["o", "m"]⟩ ∧
    (Household.members ⟨"o", ["o", "m"]⟩).contains "m" = true ∧
    dget ((get_household_wrapped_keys egStoreC4 "h").getD []) "m" = some "" ∧
    (get_household_key egStoreC4 "m" "h").result = .ok ⟨"h", some "", false⟩ ∧
    (get_household_key egStoreC4 "m" "h").result ≠
      .ok ⟨"h", some "", true⟩ := by decide

/-- C4 (amended): for an existing household, a current-member caller
never gets an error from `get_household_key`: with no entry it returns
`has_key = false` and no wrapped key, with a non-empty entry it returns
`has_key = true` and that entry, and with an empty-string entry it
returns the entry but `has_key = false` (Python truthiness). -/
theorem C4_get_household_key_member_never_fails (s : Store)
    (caller hid : String) (hh : Household)
    (hget : get_household s hid = some hh)
    (hmem : hh.members.contains caller = true) :
    (∀ e, (get_household_key s caller hid).result ≠ .error e) ∧
    (get_household_key s caller hid).store = s ∧
    (dget ((get_household_wrapped_keys s hid).getD []) caller = none →
      (get_household_key s caller hid).result = .ok ⟨hid, none, false⟩) ∧
    (∀ v, dget ((get_household_wrapped_keys s hid).getD []) caller = some v →
      v ≠ "" →
      (get_household_key s caller hid).result = .ok ⟨hid, some v, true⟩) ∧
    (dget ((get_household_wrapped_keys s hid).getD []) caller = some "" →
      (get_household_key s caller hid).result = .ok ⟨hid, some "", false⟩) := by
  rw [get_household_key_member_eq s caller hid hh hget hmem]
  refine ⟨by simp, rfl, ?_, ?_, ?_⟩
  · intro h0; rw [h0]; rfl
  · intro v hv hne; rw [hv]; simp [pyTruthy, hne]
  · intro h0; rw [h0]; rfl

/-- C4 witness at a concrete input: owner `o` of household `h` holds the
non-empty entry `ko`, and the amended characterization holds there. -/
theorem C4_get_household_key_member_never_fails_witness :
    get_household egStoreA "h" = some ⟨"o", ["o", "m"]⟩ ∧
    (Household.members ⟨"o", ["o", "m"]⟩).contains "o" = true ∧
    ((∀ e, (get_household_key egStoreA "o" "h").result ≠ .error e) ∧
    (get_household_key egStoreA "o" "h").store = egStoreA ∧
    (dget ((get_household_wrapped_keys egStoreA "h").getD []) "o" = none →
      (get_household_key egStoreA "o" "h").result = .ok ⟨"h", none, false⟩) ∧
    (∀ v, dget ((get_household_wrapped_keys egStoreA "h").getD []) "o" = some v →
      v ≠ "" →
      (get_household_key egStoreA "o" "h").result = .ok ⟨"h", some v, true⟩) ∧
    (dget ((get_household_wrapped_keys egStoreA "h").getD []) "o" = some "" →
      (get_household_key egStoreA "o" "h").result = .ok ⟨"h", some "", false⟩)) :=
  ⟨by decide, by decide,
   C4_get_household_key_member_never_fails egStoreA "o" "h" ⟨"o", ["o", "m"]⟩
     (by decide) (by decide)⟩

/-- Helper: when all of `add_member_key`'s checks pass and the store
write succeeds, the call inserts/overwrites the one target entry into the
map it read and writes the whole map back. -/
theorem add_member_key_success_eq (s : Store) (caller hid target w : String)
    (hh : Household) (hget : get_household s hid = some hh)
    (hcaller : hh.members.contains caller = true)
    (htarget : hh.members.contains target = true)
    (hhas : dcontains ((get_household_wrapped_keys s hid).getD []) caller = true) :
    add_member_key s true caller hid target w =
      ⟨.ok (), update_household_wrapped_keys s hid
         (dset ((get_household_wrapped_keys s hid).getD []) target w), true⟩ := by
  have hcaller' : caller ∈ hh.members := by simpa using hcaller
  have htarget' : target ∈ hh.members := by simpa using htarget
  simp [add_member_key, hget, hcaller', htarget', hhas]

/-- C5: under its preconditions and a successful store write,
`add_member_key` succeeds and the stored map becomes the prior map with
exactly the target's entry inserted or overwritten to the supplied
wrapped key; every other id's entry is unchanged. -/
theorem C5_add_member_key_frame (s : Store) (caller hid target w : String)
    (hh : Household) (hget : get_household s hid = some hh)
    (hcaller : hh.members.contains caller = true)
    (htarget : hh.members.contains target = true)
    (hhas : dcontains ((get_household_wrapped_keys s hid).getD []) caller = true) :
    (add_member_key s true caller hid target w).result = .ok () ∧
    get_household_wrapped_keys
        (add_member_key s true caller hid target w).store hid =
      some (dset ((get_household_wrapped_keys s hid).getD []) target w) ∧
    dget ((get_household_wrapped_keys
        (add_member_key s true caller hid target w).store hid).getD [])
      target = some w ∧
    ∀ k, k ≠ target →
      dget ((get_household_wrapped_keys
          (add_member_key s true caller hid target w).store hid).getD []) k =
      dget ((get_household_wrapped_keys s hid).getD []) k := by
  rw [add_member_key_success_eq s caller hid target w hh hget hcaller htarget hhas]
  refine ⟨rfl, ?_, ?_, ?_⟩
  · rw [get_wrapped_update_wrapped]; simp
  · rw [get_wrapped_update_wrapped]; simp [dget_dset]
  · intro k hk
    rw [get_wrapped_update_wrapped]
    simp [dget_dset, Ne.symm hk]

/-- C5 witness at a concrete input: the keyed owner `o` adds a wrapped
key `wm` for member `m` of household `h`; the frame property holds. -/
theorem C5_add_member_key_frame_witness :
    get_household egStoreA "h" = some ⟨"o", ["o", "m"]⟩ ∧
    (Household.members ⟨"o", ["o", "m"]⟩).contains "o" = true ∧
    (Household.members ⟨"o", ["o", "m"]⟩).contains "m" = true ∧
    dcontains ((get_household_wrapped_keys egStoreA "h").getD []) "o" = true ∧
    ((add_member_key egStoreA true "o" "h" "m" "wm").result = .ok () ∧
    get_household_wrapped_keys
        (add_member_key egStoreA true "o" "h" "m" "wm").store "h" =
      some (dset ((get_household_wrapped_keys egStoreA "h").getD []) "m" "wm") ∧
    dget ((get_household_wrapped_keys
        (add_member_key egStoreA true "o" "h" "m" "wm").store "h").getD [])
      "m" = some "wm" ∧
    ∀ k, k ≠ "m" →
      dget ((get_household_wrapped_keys
          (add_member_key egStoreA true "o" "h" "m" "wm").store "h").getD []) k =
      dget ((get_household_wrapped_keys egStoreA "h").getD []) k) :=
  ⟨by decide, by decide, by decide, by decide,
   C5_add_member_key_frame egStoreA "o" "h" "m" "wm" ⟨"o", ["o", "m"]⟩
     (by decide) (by decide) (by decide) (by decide)⟩

/-! Frame lemmas for the leave path's two writes. -/

theorem get_household_update_members (s : Store) (hid : String)
    (ms : List String) (hid' : String) :
    get_household (update_household_members s hid ms) hid' =
      if hid = hid' then (get_household s hid).map (fun hh => { hh with members := ms })
      else get_household s hid' := by
  simp [get_household, update_household_members, dget_dmodify]

theorem get_household_update_user_households (s : Store) (uid : String)
    (hs : List String) (hid' : String) :
    get_household (update_user_households s uid hs) hid' =
      get_household s hid' := rfl

theorem wrapped_keys_update_members (s : Store) (hid : String)
    (ms : List String) :
    (update_household_members s hid ms).householdWrappedKeys =
      s.householdWrappedKeys := rfl

theorem wrapped_keys_update_user_households (s : Store) (uid : String)
    (hs : List String) :
    (update_user_households s uid hs).householdWrappedKeys =
      s.householdWrappedKeys := rfl

/-- C6: key state and membership state diverge by design.  A non-owner
member leaving the household is removed from the member list while the
household's wrapped-key map is left entirely unchanged; conversely a
successful owner `remove_member_key` leaves the household record (hence
the member list) untouched, deletes only the vault entry, and a
subsequent `get_household_key` for that still-member reports
`has_key = false`. -/
theorem C6_key_membership_divergence (s : Store) (hid : String)
    (hh : Household) (hget : get_household s hid = some hh) :
    (∀ leaver, hh.members.contains leaver = true → hh.owner_id ≠ leaver →
      (leave_household s leaver hid).result = .ok () ∧
      get_household (leave_household s leaver hid).store hid =
        some { hh with members := hh.members.filter (fun m => m ≠ leaver) } ∧
      (leave_household s leaver hid).store.householdWrappedKeys =
        s.householdWrappedKeys) ∧
    (∀ ocaller mid, hh.owner_id = ocaller → hh.members.contains mid = true →
      (remove_member_key s true ocaller hid mid).result = .ok () ∧
      get_household (remove_member_key s true ocaller hid mid).store hid =
        some hh ∧
      dget ((get_household_wrapped_keys
        (remove_member_key s true ocaller hid mid).store hid).getD []) mid =
        none ∧
      (get_household_key
        (remove_member_key s true ocaller hid mid).store mid hid).result =
        .ok ⟨hid, none, false⟩) := by
  constructor
  · intro leaver hmem hnotown
    have hmem' : leaver ∈ hh.members := by simpa using hmem
    cases hu : get_user_by_id
        (update_household_members s hid
          (hh.members.filter (fun m => !decide (m = leaver)))) leaver with
    | none =>
      have hout : leave_household s leaver hid =
          ⟨.ok (), update_household_members s hid
             (hh.members.filter (fun m => !decide (m = leaver))), true⟩ := by
        simp [leave_household, hget, hmem', hnotown, hu]
      rw [hout]
      refine ⟨rfl, ?_, rfl⟩
      rw [get_household_update_members]
      simp [hget]
    | some u =>
      have hout : leave_household s leaver hid =
          ⟨.ok (), update_user_households
             (update_household_members s hid
               (hh.members.filter (fun m => !decide (m = leaver))))
             leaver (u.households.filter (fun h => !decide (h = hid))), true⟩ := by
        simp [leave_household, hget, hmem', hnotown, hu]
      rw [hout]
      refine ⟨rfl, ?_, rfl⟩
      rw [get_household_update_user_households, get_household_update_members]
      simp [hget]
  · intro ocaller mid hown hmidmem
    by_cases hc : dcontains ((get_household_wrapped_keys s hid).getD []) mid = true
    · rw [remove_member_key_present_eq s ocaller hid mid hh hget hown hc]
      have hget1 : get_household
          (update_household_wrapped_keys s hid
            (ddel ((get_household_wrapped_keys s hid).getD []) mid)) hid =
          some hh := hget
      have hm1 : dget ((get_household_wrapped_keys
          (update_household_wrapped_keys s hid
            (ddel ((get_household_wrapped_keys s hid).getD []) mid)) hid).getD [])
          mid = none := by
        rw [get_wrapped_update_wrapped]
        simp [dget_ddel]
      refine ⟨rfl, hget1, hm1, ?_⟩
      rw [get_household_key_member_eq _ mid hid hh hget1 hmidmem, hm1]
      rfl
    · have habs : dcontains ((get_household_wrapped_keys s hid).getD []) mid = false := by
        simpa using hc
      have hm0 : dget ((get_household_wrapped_keys s hid).getD []) mid = none :=
        dget_eq_none_of_dcontains_false _ mid habs
      rw [remove_member_key_absent_eq s true ocaller hid mid hh hget hown habs]
      refine ⟨rfl, hget, hm0, ?_⟩
      rw [get_household_key_member_eq s mid hid hh hget hmidmem, hm0]
      rfl

/-- C6 witness at a concrete input: member `m` leaving household `h`
shrinks the member list but not the vault, and the owner removing `o`'s
own entry leaves membership untouched while `get_household_key` then
reports `has_key = false`. -/
theorem C6_key_membership_divergence_witness :
    get_household egStoreA "h" = some ⟨"o", ["o", "m"]⟩ ∧
    ((∀ leaver,
      (Household.members ⟨"o", ["o", "m"]⟩).contains leaver = true →
      (Household.owner_id ⟨"o", ["o", "m"]⟩) ≠ leaver →
      (leave_household egStoreA leaver "h").result = .ok () ∧
      get_household (leave_household egStoreA leaver "h").store "h" =
        some { (⟨"o", ["o", "m"]⟩ : Household) with
               members := (Household.members ⟨"o", ["o", "m"]⟩).filter
                 (fun m => m ≠ leaver) } ∧
      (leave_household egStoreA leaver "h").store.householdWrappedKeys =
        egStoreA.householdWrappedKeys) ∧
    (∀ ocaller mid, (Household.owner_id ⟨"o", ["o", "m"]⟩) = ocaller →
      (Household.members ⟨"o", ["o", "m"]⟩).contains mid = true →
      (remove_member_key egStoreA true ocaller "h" mid).result = .ok () ∧
      get_household (remove_member_key egStoreA true ocaller "h" mid).store "h" =
        some ⟨"o", ["o", "m"]⟩ ∧
      dget ((get_household_wrapped_keys
        (remove_member_key egStoreA true ocaller "h" mid).store "h").getD []) mid =
        none ∧
      (get_household_key
        (remove_member_key egStoreA true ocaller "h" mid).store mid "h").result =
        .ok ⟨"h", none, false⟩)) :=
  ⟨by decide, C6_key_membership_divergence egStoreA "h" ⟨"o", ["o", "m"]⟩ (by decide)⟩

/-- Events of two concurrent `add_member_key` read-modify-write
sequences: each process reads the current wrapped-key map, then writes
back its locally modified copy. -/
inductive RmwEv where
  | read1
  | write1
  | read2
  | write2
deriving DecidableEq, Repr

/-- State of a race execution: the store plus each process's local
snapshot of the wrapped-key map (initially empty, set by its read). -/
structure RaceState where
  store : Store
  snap1 : WMap
  snap2 : WMap
deriving DecidableEq, Repr

/-- One interleaving step: process 1 adds target `a` with key `wa`,
process 2 adds target `c` with key `wc`.  A read takes the current map
with the `or \x7b\x7d` default exactly as `add_member_key` does; a write
stores the snapshot with the one entry inserted, exactly as
`add_member_key` does — unconditionally, with no version check. -/
def raceStep (hid a wa c wc : String) (st : RaceState) : RmwEv → RaceState
  | .read1 => { st with snap1 := (get_household_wrapped_keys st.store hid).getD [] }
  | .write1 => { st with store := update_household_wrapped_keys st.store hid (dset st.snap1 a wa) }
  | .read2 => { st with snap2 := (get_household_wrapped_keys st.store hid).getD [] }
  | .write2 => { st with store := update_household_wrapped_keys st.store hid (dset st.snap2 c wc) }

/-- Execute an interleaving of the two processes from store `s`. -/
def raceExec (hid a wa c wc : String) (s : Store) (sched : List RmwEv) : Store :=
  (sched.foldl (raceStep hid a wa c wc) ⟨s, [], []⟩).store

/-- The six interleavings of the two read-modify-write sequences that
respect each sequence's program order (its read before its write). -/
def raceSchedules : List (List RmwEv) :=
  [[.read1, .write1, .read2, .write2],
   [.read2, .write2, .read1, .write1],
   [.read1, .read2, .write1, .write2],
   [.read2, .read1, .write1, .write2],
   [.read1, .read2, .write2, .write1],
   [.read2, .read1, .write2, .write1]]

/-- Helper: reading the wrapped-key map just written for the same
household returns exactly that map. -/
theorem get_wrapped_update_same (s : Store) (hid : String) (m : WMap) :
    get_household_wrapped_keys (update_household_wrapped_keys s hid m) hid =
      some m := by
  rw [get_wrapped_update_wrapped]; simp

/-- C8: lost-update race of two `add_member_key` read-modify-write
sequences for two different new members `a` and `c`.  When both
sequences read the same snapshot (the four overlapped interleavings),
the final stored map is the snapshot plus only the later writer's entry
and the earlier writer's addition is lost; both additions survive in the
two serialized interleavings; in every interleaving any id other than
the two targets keeps its snapshot entry (entries are only dropped,
never corrupted); and a serialized interleaving coincides with running
`add_member_key` twice sequentially. -/
theorem C8_add_member_key_lost_update (s : Store)
    (hid a wa c wc caller1 caller2 : String) (hh : Household)
    (hget : get_household s hid = some hh)
    (hm1 : hh.members.contains caller1 = true)
    (hm2 : hh.members.contains caller2 = true)
    (hma : hh.members.contains a = true)
    (hmc : hh.members.contains c = true)
    (hk1 : dcontains ((get_household_wrapped_keys s hid).getD []) caller1 = true)
    (hk2 : dcontains ((get_household_wrapped_keys s hid).getD []) caller2 = true)
    (hac : a ≠ c) (ha2 : a ≠ caller2)
    (ha0 : dget ((get_household_wrapped_keys s hid).getD []) a = none)
    (hc0 : dget ((get_household_wrapped_keys s hid).getD []) c = none) :
    (∀ sched ∈ ([[.read1, .read2, .write1, .write2],
                 [.read2, .read1, .write1, .write2]] : List (List RmwEv)),
      get_household_wrapped_keys (raceExec hid a wa c wc s sched) hid =
        some (dset ((get_household_wrapped_keys s hid).getD []) c wc) ∧
      dget ((get_household_wrapped_keys
        (raceExec hid a wa c wc s sched) hid).getD []) a = none) ∧
    (∀ sched ∈ ([[.read1, .read2, .write2, .write1],
                 [.read2, .read1, .write2, .write1]] : List (List RmwEv)),
      get_household_wrapped_keys (raceExec hid a wa c wc s sched) hid =
        some (dset ((get_household_wrapped_keys s hid).getD []) a wa) ∧
      dget ((get_household_wrapped_keys
        (raceExec hid a wa c wc s sched) hid).getD []) c = none) ∧
    (∀ sched ∈ ([[.read1, .write1, .read2, .write2],
                 [.read2, .write2, .read1, .write1]] : List (List RmwEv)),
      dget ((get_household_wrapped_keys
        (raceExec hid a wa c wc s sched) hid).getD []) a = some wa ∧
      dget ((get_household_wrapped_keys
        (raceExec hid a wa c wc s sched) hid).getD []) c = some wc) ∧
    (∀ sched ∈ raceSchedules, ∀ k, k ≠ a → k ≠ c →
      dget ((get_household_wrapped_keys
        (raceExec hid a wa c wc s sched) hid).getD []) k =
      dget ((get_household_wrapped_keys s hid).getD []) k) ∧
    (∀ sched ∈ raceSchedules,
      (dget ((get_household_wrapped_keys
         (raceExec hid a wa c wc s sched) hid).getD []) a = none ∨
       dget ((get_household_wrapped_keys
         (raceExec hid a wa c wc s sched) hid).getD []) a = some wa) ∧
      (dget ((get_household_wrapped_keys
         (raceExec hid a wa c wc s sched) hid).getD []) c = none ∨
       dget ((get_household_wrapped_keys
         (raceExec hid a wa c wc s sched) hid).getD []) c = some wc)) ∧
    (add_member_key (add_member_key s true caller1 hid a wa).store
        true caller2 hid c wc).store =
      raceExec hid a wa c wc s [.read1, .write1, .read2, .write2] := by
  refine ⟨?_, ?_, ?_, ?_, ?_, ?_⟩
  · intro sched hs
    fin_cases hs <;>
      exact ⟨by simp [raceExec, raceStep, get_wrapped_update_same],
             by simp [raceExec, raceStep, get_wrapped_update_same, dget_dset,
                      Ne.symm hac, ha0]⟩
  · intro sched hs
    fin_cases hs <;>
      exact ⟨by simp [raceExec, raceStep, get_wrapped_update_same],
             by simp [raceExec, raceStep, get_wrapped_update_same, dget_dset,
                      hac, hc0]⟩
  · intro sched hs
    fin_cases hs <;>
      exact ⟨by simp [raceExec, raceStep, get_wrapped_update_same, dget_dset,
                      hac, Ne.symm hac],
             by simp [raceExec, raceStep, get_wrapped_update_same, dget_dset,
                      hac, Ne.symm hac]⟩
  · intro sched hs k hka hkc
    fin_cases hs <;>
      simp [raceExec, raceStep, get_wrapped_update_same, dget_dset,
            Ne.symm hka, Ne.symm hkc]
  · intro sched hs
    fin_cases hs <;>
      exact ⟨by simp [raceExec, raceStep, get_wrapped_update_same, dget_dset,
                      hac, Ne.symm hac, ha0, hc0],
             by simp [raceExec, raceStep, get_wrapped_update_same, dget_dset,
                      hac, Ne.symm hac, ha0, hc0]⟩
  · have hget1 : get_household
        (update_household_wrapped_keys s hid
          (dset ((get_household_wrapped_keys s hid).getD []) a wa)) hid =
        some hh := hget
    have hk2' : dcontains ((get_household_wrapped_keys
        (update_household_wrapped_keys s hid
          (dset ((get_household_wrapped_keys s hid).getD []) a wa)) hid).getD [])
        caller2 = true := by
      unfold dcontains
      rw [get_wrapped_update_same, Option.getD_some, dget_dset, if_neg ha2]
      exact hk2
    have e1 : (add_member_key s true caller1 hid a wa).store =
        update_household_wrapped_keys s hid
          (dset ((get_household_wrapped_keys s hid).getD []) a wa) := by
      rw [add_member_key_success_eq s caller1 hid a wa hh hget hm1 hma hk1]
    have e2 : (add_member_key (add_member_key s true caller1 hid a wa).store
          true caller2 hid c wc).store =
        update_household_wrapped_keys
          (update_household_wrapped_keys s hid
            (dset ((get_household_wrapped_keys s hid).getD []) a wa)) hid
          (dset (dset ((get_household_wrapped_keys s hid).getD []) a wa) c wc) := by
      rw [e1, add_member_key_success_eq _ caller2 hid c wc hh hget1 hm2 hmc hk2']
      rw [get_wrapped_update_same, Option.getD_some]
    rw [e2]
    simp [raceExec, raceStep, get_wrapped_update_same]

/-- Store for the C8 witness: household `h` with owner `o`, keyed member
`b`, and two not-yet-keyed members `x` and `y`. -/
def egStoreC8 : Store :=
  ⟨[], [("h", ⟨"o", ["o", "b", "x", "y"]⟩)], [],
   [("h", [("o", "wo"), ("b", "wb")])]⟩

/-- C8 witness at a concrete input: owner `o` adds `x` while keyed
member `b` adds `y`; the race characterization holds on `egStoreC8`. -/
theorem C8_add_member_key_lost_update_witness :
    (get_household egStoreC8 "h" = some ⟨"o", ["o", "b", "x", "y"]⟩ ∧
     (Household.members ⟨"o", ["o", "b", "x", "y"]⟩).contains "o" = true ∧
     (Household.members ⟨"o", ["o", "b", "x", "y"]⟩).contains "b" = true ∧
     (Household.members ⟨"o", ["o", "b", "x", "y"]⟩).contains "x" = true ∧
     (Household.members ⟨"o", ["o", "b", "x", "y"]⟩).contains "y" = true ∧
     dcontains ((get_household_wrapped_keys egStoreC8 "h").getD []) "o" = true ∧
     dcontains ((get_household_wrapped_keys egStoreC8 "h").getD []) "b" = true ∧
     ("x" : String) ≠ "y" ∧ ("x" : String) ≠ "b" ∧
     dget ((get_household_wrapped_keys egStoreC8 "h").getD []) "x" = none ∧
     dget ((get_household_wrapped_keys egStoreC8 "h").getD []) "y" = none) ∧
    ((∀ sched ∈ ([[.read1, .read2, .write1, .write2],
                  [.read2, .read1, .write1, .write2]] : List (List RmwEv)),
      get_household_wrapped_keys (raceExec "h" "x" "wx" "y" "wy" egStoreC8 sched) "h" =
        some (dset ((get_household_wrapped_keys egStoreC8 "h").getD []) "y" "wy") ∧
      dget ((get_household_wrapped_keys
        (raceExec "h" "x" "wx" "y" "wy" egStoreC8 sched) "h").getD []) "x" = none) ∧
    (∀ sched ∈ ([[.read1, .read2, .write2, .write1],
                 [.read2, .read1, .write2, .write1]] : List (List RmwEv)),
      get_household_wrapped_keys (raceExec "h" "x" "wx" "y" "wy" egStoreC8 sched) "h" =
        some (dset ((get_household_wrapped_keys egStoreC8 "h").getD []) "x" "wx") ∧
      dget ((get_household_wrapped_keys
        (raceExec "h" "x" "wx" "y" "wy" egStoreC8 sched) "h").getD []) "y" = none) ∧
    (∀ sched ∈ ([[.read1, .write1, .read2, .write2],
                 [.read2, .write2, .read1, .write1]] : List (List RmwEv)),
      dget ((get_household_wrapped_keys
        (raceExec "h" "x" "wx" "y" "wy" egStoreC8 sched) "h").getD []) "x" = some "wx" ∧
      dget ((get_household_wrapped_keys
        (raceExec "h" "x" "wx" "y" "wy" egStoreC8 sched) "h").getD []) "y" = some "wy") ∧
    (∀ sched ∈ raceSchedules, ∀ k, k ≠ "x" → k ≠ "y" →
      dget ((get_household_wrapped_keys
        (raceExec "h" "x" "wx" "y" "wy" egStoreC8 sched) "h").getD []) k =
      dget ((get_household_wrapped_keys egStoreC8 "h").getD []) k) ∧
    (∀ sched ∈ raceSchedules,
      (dget ((get_household_wrapped_keys
         (raceExec "h" "x" "wx" "y" "wy" egStoreC8 sched) "h").getD []) "x" = none ∨
       dget ((get_household_wrapped_keys
         (raceExec "h" "x" "wx" "y" "wy" egStoreC8 sched) "h").getD []) "x" = some "wx") ∧
      (dget ((get_household_wrapped_keys
         (raceExec "h" "x" "wx" "y" "wy" egStoreC8 sched) "h").getD []) "y" = none ∨
       dget ((get_household_wrapped_keys
         (raceExec "h" "x" "wx" "y" "wy" egStoreC8 sched) "h").getD []) "y" = some "wy")) ∧
    (add_member_key (add_member_key egStoreC8 true "o" "h" "x" "wx").store
        true "b" "h" "y" "wy").store =
      raceExec "h" "x" "wx" "y" "wy" egStoreC8
        [.read1, .write1, .read2, .write2]) :=
  ⟨⟨by decide, by decide, by decide, by decide, by decide, by decide, by decide,
    by decide, by decide, by decide, by decide⟩,
   C8_add_member_key_lost_update egStoreC8 "h" "x" "wx" "y" "wy" "o" "b"
     ⟨"o", ["o", "b", "x", "y"]⟩ (by decide) (by decide) (by decide) (by decide)
     (by decide) (by decide) (by decide) (by decide) (by decide) (by decide)
     (by decide)⟩

/-- C3 witness at a concrete input: user `u` sets up keys with a
non-empty public key; afterwards reading leaves the store unchanged and
every further setup attempt fails `AlreadySetUp` without a write. -/
theorem C3_setup_user_keys_write_once_witness :
    (setup_user_keys egStoreC3 true "u" ⟨"pk", "epk", "salt", 1⟩).result =
      .ok ⟨"pk", "epk", "salt", 1, true⟩ ∧
    ("pk" : String) ≠ "" ∧
    ((get_user_encryption_keys
        (setup_user_keys egStoreC3 true "u" ⟨"pk", "epk", "salt", 1⟩).store "u").store =
      (setup_user_keys egStoreC3 true "u" ⟨"pk", "epk", "salt", 1⟩).store ∧
    ∀ writeOk2 (data2 : UserKeySetup),
      (setup_user_keys
          (setup_user_keys egStoreC3 true "u" ⟨"pk", "epk", "salt", 1⟩).store
          writeOk2 "u" data2).result = .error .AlreadySetUp ∧
      (setup_user_keys
          (setup_user_keys egStoreC3 true "u" ⟨"pk", "epk", "salt", 1⟩).store
          writeOk2 "u" data2).store =
        (setup_user_keys egStoreC3 true "u" ⟨"pk", "epk", "salt", 1⟩).store ∧
      (setup_user_keys
          (setup_user_keys egStoreC3 true "u" ⟨"pk", "epk", "salt", 1⟩).store
          writeOk2 "u" data2).wrote = false) :=
  ⟨by decide, by decide,
   C3_setup_user_keys_write_once egStoreC3 true "u" ⟨"pk", "epk", "salt", 1⟩
     ⟨"pk", "epk", "salt", 1, true⟩ (by decide) (by decide)⟩
